import Mathlib

/-!
# Verification of the AI Writing Helper plugin core (src/main.ts)

A shallow embedding of the core algorithms of the Obsidian plugin
`ai-writing-tools-obsidian` and proofs about them.

Strings from the JavaScript/TypeScript side are modelled as Lean `String`
(or as `List Char` where index arithmetic matters; a JS string is a
sequence of code units, and all the functions verified here act on it
only through `length`, `slice`, `trim` and concatenation, so a character
list is a faithful model).  JS `Number` values used here are always
integers in safe range, modelled as `Nat`/`Int`.

The repository ships two variants of the program: the TypeScript source
(`main.ts`, three task kinds, context radius 1200, elision marker
`"\n…\n"`) and a bundled build (two task kinds, radius 40, marker
`"\n...\n"`).  Both are embedded where claims refer to both.
-/

/-- JavaScript `str.slice(a, b)` for `0 ≤ a ≤ b` (the only way it is
called in this program): the characters in positions `[a, b)`. -/
def jsSlice (l : List Char) (a b : Nat) : List Char :=
  (l.drop a).take (b - a)

/-- Context extraction as performed in `runTask` (main.ts lines 109-112):
`LEFT = Math.max(0, fromPos - radius)`, `RIGHT = Math.min(doc.length, toPos + radius)`,
`leftCtx = doc.slice(LEFT, fromPos)`, `rightCtx = doc.slice(toPos, RIGHT)`.
`Math.max(0, fromPos - radius)` over integers is exactly truncated `Nat`
subtraction `fromPos - radius` (proved below, `leftBound_eq_max`).
The TypeScript variant calls this with `radius = 1200`, the build variant
with `radius = 40`. -/
def extract (doc : List Char) (fromPos toPos radius : Nat) : List Char × List Char :=
  let leftBound := fromPos - radius
  let rightBound := min doc.length (toPos + radius)
  (jsSlice doc leftBound fromPos, jsSlice doc toPos rightBound)

theorem leftBound_eq_max (fromPos radius : Nat) :
    ((fromPos - radius : Nat) : Int) = max 0 ((fromPos : Int) - (radius : Int)) := by
  omega

theorem rightBound_eq_min (docLen toPos radius : Nat) :
    ((min docLen (toPos + radius) : Nat) : Int)
      = min (docLen : Int) ((toPos : Int) + (radius : Int)) := by
  omega

theorem jsSlice_append (l : List Char) (a m b : Nat) (h1 : a ≤ m) (h2 : m ≤ b) :
    jsSlice l a m ++ jsSlice l m b = jsSlice l a b := by
  unfold jsSlice
  have hdrop : l.drop m = (l.drop a).drop (m - a) := by
    rw [List.drop_drop]
    congr 1
    omega
  rw [hdrop, ← List.take_add]
  congr 1
  omega

theorem jsSlice_isSub (l : List Char) (a b : Nat) :
    ∃ pre post, pre ++ jsSlice l a b ++ post = l := by
  refine ⟨l.take a, (l.drop a).drop (b - a), ?_⟩
  unfold jsSlice
  rw [List.append_assoc, List.take_append_drop, List.take_append_drop]

/-- The combined C1 property of `extract`, stated over an arbitrary
radius (the program instantiates `radius` at 1200 resp. 40). -/
def C1Prop (doc : List Char) (fromPos toPos radius : Nat) : Prop :=
  ((fromPos - radius : Nat) : Int) = max 0 ((fromPos : Int) - (radius : Int)) ∧
  ((min doc.length (toPos + radius) : Nat) : Int)
      = min (doc.length : Int) ((toPos : Int) + (radius : Int)) ∧
  (extract doc fromPos toPos radius).1 = jsSlice doc (fromPos - radius) fromPos ∧
  (extract doc fromPos toPos radius).2
      = jsSlice doc toPos (min doc.length (toPos + radius)) ∧
  (extract doc fromPos toPos radius).1 ++ jsSlice doc fromPos toPos
        ++ (extract doc fromPos toPos radius).2
      = jsSlice doc (fromPos - radius) (min doc.length (toPos + radius)) ∧
  (∃ pre post,
      pre ++ ((extract doc fromPos toPos radius).1 ++ jsSlice doc fromPos toPos
        ++ (extract doc fromPos toPos radius).2) ++ post = doc) ∧
  (∃ pre post, pre ++ (extract doc fromPos toPos radius).1 ++ post = doc) ∧
  (∃ pre post, pre ++ (extract doc fromPos toPos radius).2 ++ post = doc)

/-- **C1.**  For every document and selection with
`0 ≤ fromPos ≤ toPos ≤ doc.length`, the context extraction in `runTask`
computes `leftBound = max(0, fromPos - radius)` and
`rightBound = min(doc.length, toPos + radius)`, returns
`leftContext = doc[leftBound:fromPos]` and `rightContext = doc[toPos:rightBound]`,
`leftContext ++ doc[fromPos:toPos] ++ rightContext` is a contiguous
substring of `doc`, and neither context string crosses document bounds
(each is itself a contiguous substring of `doc`), covering all boundary
cases (selection at document start/end, radius exceeding the remaining
length). -/
theorem claim_C1 (doc : List Char) (fromPos toPos radius : Nat)
    (h1 : fromPos ≤ toPos) (h2 : toPos ≤ doc.length) :
    C1Prop doc fromPos toPos radius := by
  have hab : fromPos - radius ≤ fromPos := Nat.sub_le _ _
  have hbc : toPos ≤ min doc.length (toPos + radius) := by omega
  have hrec : (extract doc fromPos toPos radius).1 ++ jsSlice doc fromPos toPos
        ++ (extract doc fromPos toPos radius).2
      = jsSlice doc (fromPos - radius) (min doc.length (toPos + radius)) := by
    show jsSlice doc (fromPos - radius) fromPos ++ jsSlice doc fromPos toPos
        ++ jsSlice doc toPos (min doc.length (toPos + radius)) = _
    rw [List.append_assoc, jsSlice_append doc fromPos toPos _ h1 hbc,
      jsSlice_append doc (fromPos - radius) fromPos _ hab (le_trans h1 hbc)]
  refine ⟨leftBound_eq_max fromPos radius, rightBound_eq_min doc.length toPos radius,
    rfl, rfl, hrec, ?_, jsSlice_isSub doc _ _, jsSlice_isSub doc _ _⟩
  rw [hrec]
  exact jsSlice_isSub doc _ _

/-- Witness for C1 at a concrete input: document `"hello world"`,
selection `[2, 5)`, radius 3. -/
theorem claim_C1_witness : C1Prop ("hello world".data) 2 5 3 :=
  claim_C1 ("hello world".data) 2 5 3 (by decide) (by decide)

/-- `trimForTokens`, generic in the elision marker.  Source
(main.ts lines 308-312 and build lines 689-693, identical except for the
marker literal):
`if (s.length <= maxChars) return s;`
`const half = Math.floor(maxChars / 2);`
`return s.slice(0, half) + MARKER + s.slice(s.length - half);`
`s.slice(0, half)` is `take half`; `s.slice(s.length - half)` (one-argument
slice) is `drop (s.length - half)`. -/
def trimForTokensWith (marker : List Char) (s : List Char) (maxChars : Nat) : List Char :=
  if s.length ≤ maxChars then s
  else
    let half := maxChars / 2
    s.take half ++ marker ++ s.drop (s.length - half)

/-- The TypeScript variant's elision marker `"\n…\n"` (3 characters). -/
def ellipsisTs : List Char := "\n…\n".data

/-- The build variant's elision marker `"\n...\n"` (5 characters). -/
def ellipsisBuild : List Char := "\n...\n".data

/-- `trimForTokens` of the TypeScript source (main.ts lines 308-312). -/
def trimForTokens (s : List Char) (maxChars : Nat) : List Char :=
  trimForTokensWith ellipsisTs s maxChars

/-- `trimForTokens` of the bundled build (lines 689-693 of the build
artifact); differs from the TypeScript variant only in the marker. -/
def trimForTokensBuild (s : List Char) (maxChars : Nat) : List Char :=
  trimForTokensWith ellipsisBuild s maxChars

/-- **C2, counterexample.**  The claim says that for `len(s) > maxChars` the
result is the first `floor(maxChars/2)` characters, the marker, then the
*last `maxChars - floor(maxChars/2)`* characters.  At `s = "abcde"`,
`maxChars = 3` the code keeps 1 + 1 characters (`"a" … "e"`), while the
claim predicts 1 + 2 characters (`"a" … "de"`): the code keeps the last
`floor(maxChars/2)` characters, not the last `maxChars - floor(maxChars/2)`. -/
theorem claim_C2_counterexample :
    trimForTokens ("abcde".data) 3 = "a".data ++ ellipsisTs ++ "e".data ∧
    trimForTokens ("abcde".data) 3
      ≠ ("abcde".data).take (3 / 2) ++ ellipsisTs
          ++ ("abcde".data).drop (("abcde".data).length - (3 - 3 / 2)) := by
  constructor
  · decide
  · decide

/-- **C2, amended.**  For every marker (instantiated by the two program
variants at `ellipsisTs` and `ellipsisBuild`), `trimForTokensWith marker s maxChars`
returns `s` unchanged if `len(s) ≤ maxChars`; otherwise it returns the
first `floor(maxChars/2)` characters of `s`, the elision marker, and the
*last `floor(maxChars/2)`* characters of `s`, so the output is a
prefix+suffix of `s` whose length is bounded by `maxChars` plus the
length of the marker.  (The truncation is not an "iff no-op": the code
keeps `floor(maxChars/2)` on both sides, and for pathological inputs the
truncated output can coincide with `s`.) -/
theorem claim_C2 (marker s : List Char) (maxChars : Nat) :
    (s.length ≤ maxChars → trimForTokensWith marker s maxChars = s) ∧
    (maxChars < s.length →
      trimForTokensWith marker s maxChars
          = s.take (maxChars / 2) ++ marker ++ s.drop (s.length - maxChars / 2) ∧
      (trimForTokensWith marker s maxChars).length ≤ maxChars + marker.length ∧
      ∃ pre suf rest1 rest2,
        pre ++ rest1 = s ∧ rest2 ++ suf = s ∧
        trimForTokensWith marker s maxChars = pre ++ marker ++ suf) := by
  constructor
  · intro h
    unfold trimForTokensWith
    rw [if_pos h]
  · intro h
    have heq : trimForTokensWith marker s maxChars
        = s.take (maxChars / 2) ++ marker ++ s.drop (s.length - maxChars / 2) := by
      unfold trimForTokensWith
      rw [if_neg (by omega)]
    refine ⟨heq, ?_, ?_⟩
    · rw [heq]
      simp only [List.length_append, List.length_take, List.length_drop]
      omega
    · exact ⟨s.take (maxChars / 2), s.drop (s.length - maxChars / 2),
        s.drop (maxChars / 2), s.take (s.length - maxChars / 2),
        List.take_append_drop _ _, List.take_append_drop _ _, heq⟩

/-- Witness for the amended C2 at `s = "abcde"`, `maxChars = 3`, the
TypeScript marker. -/
theorem claim_C2_witness :
    trimForTokensWith ellipsisTs ("abcde".data) 3
        = ("abcde".data).take (3 / 2) ++ ellipsisTs
            ++ ("abcde".data).drop (("abcde".data).length - 3 / 2) ∧
    (trimForTokensWith ellipsisTs ("abcde".data) 3).length ≤ 3 + ellipsisTs.length ∧
    ∃ pre suf rest1 rest2,
      pre ++ rest1 = "abcde".data ∧ rest2 ++ suf = "abcde".data ∧
      trimForTokensWith ellipsisTs ("abcde".data) 3 = pre ++ ellipsisTs ++ suf :=
  (claim_C2 ellipsisTs ("abcde".data) 3).2 (by decide)

/-- Overlay `top` as computed in `showPopoverAtSelection`
(main.ts lines 182-186): `const margin = 6;`
`top = Math.min(window.innerHeight - 20, (rect?.bottom ?? 80) + margin)`. -/
def overlayTop (innerHeight : Int) (rectBottom : Option Int) : Int :=
  min (innerHeight - 20) (rectBottom.getD 80 + 6)

/-- Overlay `left` as computed in `showPopoverAtSelection`
(main.ts lines 187-190):
`left = Math.min(window.innerWidth - 560, Math.max(8, rect?.left ?? 80))`. -/
def overlayLeft (innerWidth : Int) (rectLeft : Option Int) : Int :=
  min (innerWidth - 560) (max 8 (rectLeft.getD 80))

/-- Modelled from the spec's words, for comparison with the source
(refinement): the claimed per-axis clamping,
`min(desired, viewportDimension - measuredDimension - margin)` floored at
`margin`. -/
def clampedAxisSpec (desired viewportDim measuredDim margin : Int) : Int :=
  max margin (min desired (viewportDim - measuredDim - margin))

/-- **C3, counterexample.**  With viewport height 800 and an anchor whose
bottom edge is at −100 (selection scrolled above the viewport), the code
computes `top = min(800 - 20, -100 + 6) = -94`, whereas the claimed
formula (for any measured panel height, here 100) gives
`max(6, min(-94, 800 - 100 - 6)) = 6`.  The computed position is not
floored at the margin and the panel lies outside `[margin, viewport - margin]`. -/
theorem claim_C3_counterexample :
    overlayTop 800 (some (-100)) = -94 ∧
    clampedAxisSpec (-100 + 6) 800 100 6 = 6 ∧
    overlayTop 800 (some (-100)) < 6 := by
  refine ⟨?_, ?_, ?_⟩ <;> decide

/-- **C3, amended.**  The position computed on open never consults the
panel's measured size; it is clamped against fixed constants only:
`top = min(viewportHeight - 20, anchorBottom + 6)` with *no lower floor*,
and `left = min(viewportWidth - 560, max(8, anchorLeft))`.  Hence
`top ≤ viewportHeight - 20`, `left ≤ viewportWidth - 560`, and
`left ≥ 8` whenever `viewportWidth ≥ 568`; the panel itself may still
extend past the viewport edges (there is no guarantee relative to its
measured size, and `top` may be arbitrarily negative). -/
theorem claim_C3 (innerHeight innerWidth : Int) (rectBottom rectLeft : Option Int) :
    overlayTop innerHeight rectBottom = min (innerHeight - 20) (rectBottom.getD 80 + 6) ∧
    overlayLeft innerWidth rectLeft = min (innerWidth - 560) (max 8 (rectLeft.getD 80)) ∧
    overlayTop innerHeight rectBottom ≤ innerHeight - 20 ∧
    overlayLeft innerWidth rectLeft ≤ innerWidth - 560 ∧
    (568 ≤ innerWidth → 8 ≤ overlayLeft innerWidth rectLeft) := by
  refine ⟨rfl, rfl, min_le_left _ _, min_le_left _ _, fun h => ?_⟩
  exact le_min (by omega) (le_max_left _ _)

/-- Witness for the amended C3 at viewport 600×1024 with no anchor rect. -/
theorem claim_C3_witness :
    overlayTop 600 none = min (600 - 20) ((none : Option Int).getD 80 + 6) ∧
    overlayLeft 1024 none = min (1024 - 560) (max 8 ((none : Option Int).getD 80)) ∧
    overlayTop 600 none ≤ 600 - 20 ∧
    overlayLeft 1024 none ≤ 1024 - 560 ∧
    (568 ≤ (1024 : Int) → 8 ≤ overlayLeft 1024 none) :=
  claim_C3 600 1024 none none

/-- JavaScript `String.prototype.trim()`: remove leading and trailing
whitespace.  (Defined directly over the character list so it is
executable by the kernel.) -/
def jsTrim (s : List Char) : List Char :=
  ((s.dropWhile Char.isWhitespace).reverse.dropWhile Char.isWhitespace).reverse

/-- `jsTrim` on `String`. -/
def jsTrimS (s : String) : String :=
  String.mk (jsTrim s.data)

/-- The outcome of the single `fetch` round-trip performed by
`callOpenRouterChat`, as seen by the code after the response settles:
either the transport rejected (network failure, message `msg`), or a
response arrived with an HTTP status, a raw body text, and the value of
`json?.choices?.[0]?.message?.content` when it is present and a string
(`none` models absent or non-string content). -/
inductive FetchOutcome where
  | networkError (msg : String)
  | response (status : Nat) (bodyText : String) (content : Option String)

/-- `Response.ok` of the fetch API: status in the range [200, 300). -/
def resOk (status : Nat) : Bool :=
  decide (200 ≤ status) && decide (status < 300)

/-- `callOpenRouterChat` (main.ts lines 371-408), response handling:
`if (!res.ok) { throw new Error(`OpenRouter error ${res.status}: ${txt}`) }`;
then `content = json?.choices?.[0]?.message?.content?.trim?.() ?? ""`;
`if (!content) throw new Error("Empty completion."); return content;`.
A rejected `fetch` propagates as the thrown error itself. -/
def callOpenRouterChat : FetchOutcome → Except String String
  | FetchOutcome.networkError msg => Except.error msg
  | FetchOutcome.response status bodyText content =>
    if resOk status = false then
      Except.error ("OpenRouter error " ++ toString status ++ ": " ++ bodyText)
    else
      let c := (content.map jsTrimS).getD ""
      if c = "" then Except.error "Empty completion." else Except.ok c

/-- The combined C7 property of `callOpenRouterChat`. -/
def C7Prop : Prop :=
  (∀ m, callOpenRouterChat (FetchOutcome.networkError m) = Except.error m) ∧
  (∀ (st : Nat) (txt : String) (c : Option String), resOk st = false →
      callOpenRouterChat (FetchOutcome.response st txt c)
        = Except.error ("OpenRouter error " ++ toString st ++ ": " ++ txt)) ∧
  (∀ (st : Nat) (txt : String) (c : Option String),
      resOk st = true → (c.map jsTrimS).getD "" = "" →
      callOpenRouterChat (FetchOutcome.response st txt c)
        = Except.error "Empty completion.") ∧
  (∀ (st : Nat) (txt : String) (c : Option String),
      resOk st = true → (c.map jsTrimS).getD "" ≠ "" →
      callOpenRouterChat (FetchOutcome.response st txt c)
        = Except.ok ((c.map jsTrimS).getD "")) ∧
  (∀ (st : Nat) (txt : String),
      ("OpenRouter error " ++ toString st ++ ": " ++ txt) ≠ "Empty completion.")

/-- **C7.**  `callOpenRouterChat` returns the trimmed extracted message
text exactly when the HTTP response is 2xx (`res.ok`) with non-empty
(after trimming) content; otherwise it fails with a distinct error per
failure mode: a transport failure propagates the transport's error, a
non-2xx status produces `"OpenRouter error <status>: <raw body>"` (which
contains the status code and the raw response body, and is never equal to
the empty-completion error), and a 2xx response with empty or absent
content produces `"Empty completion."`. -/
theorem claim_C7 : C7Prop := by
  refine ⟨fun m => rfl, ?_, ?_, ?_, ?_⟩
  · intro st txt c h
    simp only [callOpenRouterChat]
    rw [h]
    rfl
  · intro st txt c h hc
    simp only [callOpenRouterChat]
    rw [h]
    simp only [Bool.true_eq_false, if_false]
    rw [if_pos hc]
  · intro st txt c h hc
    simp only [callOpenRouterChat]
    rw [h]
    simp only [Bool.true_eq_false, if_false]
    rw [if_neg hc]
  · intro st txt h
    have h2 := congrArg (fun s => s.data.head?) h
    simp only [String.data_append] at h2
    have hl : ("OpenRouter error ".data ++ ((toString st).data ++ (": ".data ++ txt.data))).head?
        = some 'O' := rfl
    rw [show "OpenRouter error ".data ++ (toString st).data ++ ": ".data ++ txt.data
        = "OpenRouter error ".data ++ ((toString st).data ++ (": ".data ++ txt.data)) by
      simp [List.append_assoc]] at h2
    rw [hl] at h2
    simp at h2

/-- Witness for C7: a 404 response with body `"not found"` yields the
status-bearing error. -/
theorem claim_C7_witness :
    callOpenRouterChat (FetchOutcome.response 404 "not found" none)
      = Except.error ("OpenRouter error " ++ toString 404 ++ ": " ++ "not found") := by
  have h := claim_C7
  unfold C7Prop at h
  exact h.2.1 404 "not found" none (by decide)

/-- `trimForTokens` lifted to `String` (the TypeScript variant). -/
def trimForTokensS (s : String) (maxChars : Nat) : String :=
  String.mk (trimForTokens s.data maxChars)

/-- `trimForTokens` lifted to `String` (the build variant). -/
def trimForTokensBuildS (s : String) (maxChars : Nat) : String :=
  String.mk (trimForTokensBuild s.data maxChars)

/-!
The prompt templates.  In the source each template is
`[piece, `Selection:\n"""${selection}"""`, …].join("\n\n")`; the embedding
writes the join out as the literal fixed parts between the spliced
values, which is the same string.  The fixed parts shared by all
templates (the closing `"""` of one block plus the opening of the next)
are named once.
-/

/-- `"""` + `\n\n` + `Left context:` block opener. -/
def ctxBlockL : String := "\"\"\"\n\nLeft context:\n\"\"\""

/-- `"""` + `\n\n` + `Right context:` block opener. -/
def ctxBlockR : String := "\"\"\"\n\nRight context:\n\"\"\""

/-- `"""` + `\n\n` + `Document context (truncated):` block opener. -/
def ctxBlockDoc : String := "\"\"\"\n\nDocument context (truncated):\n\"\"\""

/-- Dictionary template, part before the selection (main.ts lines 327-329). -/
def dictHead : String :=
  "Task: Define the selected text as a context-aware dictionary entry.\n\nSelection:\n\"\"\""

/-- Dictionary template, part after the document context (main.ts lines 333-338). -/
def dictTail : String :=
  "\"\"\"\n\nOutput strictly in this Markdown format (1-line fields):\n\n[Word(s)] (v./n./etc.) [Phonetic alphabet pronunciation] ([English alphabet pronunciation help])\n\n***Definition:*** [1-line definition]\n\n***Synonyms:*** [Up to 3 synonyms, separated by commas]\n\n***Etymology:*** [1-line explanation of etymology]\n\nIf POS/pronunciation are unclear, make your best brief guess (or use “—”)."

/-- Correction template, part before the selection (main.ts lines 344-345). -/
def corrHead : String :=
  "Task: Check whether the selection is correct English. Provide only a corrected version (non-destructive) and a 1-2 bullet rationale.\n\nSelection:\n\"\"\""

/-- Correction template, part after the document context (main.ts lines 349-353). -/
def corrTail : String :=
  "\"\"\"\n\nOutput Markdown like:\n\n\n**Corrected:** <single best corrected version>\n\n- Reason 1\n\n- Reason 2 (optional)\n\nDo not rewrite more than necessary. Keep tone and meaning."

/-- Explanation template, part before the selection (main.ts lines 359-360). -/
def explHead : String :=
  "Task: Explain the meaning of the selected text in the context of this document. Keep it concise and actionable.\n\nSelection:\n\"\"\""

/-- Explanation template, part after the document context (main.ts lines 364-367). -/
def explTail : String :=
  "\"\"\"\n\nOutput Markdown with short sections:\n\n\n**What it means**: <1–2 sentences>\n\n**Why it’s written this way**: <1–2 bullets>\n\n**Possible alternatives**: <up to 3 short options in bullets>"

/-- `buildPrompt` of the TypeScript source (main.ts lines 314-369).
`kind` is the runtime value of the `TaskKind` string enum
(`"Dictionary"`, `"Correction"`, `"Explanation"`); the function tests
`kind === TaskKind.Dictionary`, then `kind === TaskKind.Correction`, and
**everything else falls through to the Explanation template** — there is
no failure path in this variant. -/
def buildPrompt (kind selection leftCtx rightCtx fullDoc : String) : String :=
  let L := trimForTokensS leftCtx 2000
  let R := trimForTokensS rightCtx 2000
  let DOC := trimForTokensS fullDoc 6000
  if kind = "Dictionary" then
    dictHead ++ selection ++ ctxBlockL ++ L ++ ctxBlockR ++ R ++ ctxBlockDoc ++ DOC ++ dictTail
  else if kind = "Correction" then
    corrHead ++ selection ++ ctxBlockL ++ L ++ ctxBlockR ++ R ++ ctxBlockDoc ++ DOC ++ corrTail
  else
    explHead ++ selection ++ ctxBlockL ++ L ++ ctxBlockR ++ R ++ ctxBlockDoc ++ DOC ++ explTail

/-- Build-variant Dictionary template, part after the right context
(build lines 706-711). -/
def bDictTail : String :=
  "\"\"\"\n\nOutput strictly in this Markdown format (1-line fields):\n\n***[Word(s)]*** (v./n./etc.) [Phonetic alphabet pronunciation American US English] ([English alphabet pronunciation help American US English])\n\n***Definition:*** [1-line definition]\n\n***Synonyms:*** [Up to 3 synonyms, separated by commas]\n\n***Etymology:*** [1-line explanation of etymology]\n\nIf POS/pronunciation are unclear, make your best brief guess (or use \"--\")."

/-- Build-variant Correction template, part before the selection
(build lines 716-718). -/
def bCorrHead : String :=
  "Task: Check whether the selection is correct English. Provide only a corrected version (non-destructive) and a 1-2 bullet rationale. If it's already correct and high quality, just say \"Correct.\".\n\nSelection:\n\"\"\""

/-- Build-variant Correction template, part after the right context
(build lines 723-728). -/
def bCorrTail : String :=
  "\"\"\"\n\nOutput Markdown like:\n\n\n**Corrected:** <single best corrected version>\n\n- Reason 1\n\n- Reason 2 (optional)\n\nDo not rewrite more than necessary. Keep tone and meaning."

/-- `buildPrompt` of the bundled build (lines 694-732): only
`"Dictionary"` and `"Correction"` are handled (budgets 50, no document
block; the `_fullDoc` parameter is unused), and every other kind reaches
`throw new Error("Unsupported task kind")`, modelled as `Except.error`. -/
def buildPromptBuild (kind selection leftCtx rightCtx : String) : Except String String :=
  let L := trimForTokensBuildS leftCtx 50
  let R := trimForTokensBuildS rightCtx 50
  if kind = "Dictionary" then
    Except.ok (dictHead ++ selection ++ ctxBlockL ++ L ++ ctxBlockR ++ R ++ bDictTail)
  else if kind = "Correction" then
    Except.ok (bCorrHead ++ selection ++ ctxBlockL ++ L ++ ctxBlockR ++ R ++ bCorrTail)
  else
    Except.error "Unsupported task kind"

/-- Number of (possibly overlapping) occurrences of `needle` as a
contiguous substring of `haystack`: the number of positions at which
`needle` is an initial segment of the remaining list. -/
def countOcc (needle : List Char) : List Char → Nat
  | [] => if needle.isPrefixOf ([] : List Char) then 1 else 0
  | c :: rest => (if needle.isPrefixOf (c :: rest) then 1 else 0) + countOcc needle rest

set_option maxRecDepth 40000 in
/-- **C9, counterexample.**  The claim says every synthesized prompt
contains the verbatim selection text *exactly once*.  For the selection
`"Task"` (with empty contexts, Dictionary kind) the prompt contains the
selection **twice**: once spliced into the Selection block and once in
the fixed template text `"Task: Define …"`.  Occurrence counting is by
`countOcc` (number of substring positions). -/
theorem claim_C9_counterexample :
    countOcc "Task".data (buildPrompt "Dictionary" "Task" "" "" "").data = 2 := by
  decide

/-- **C9, amended.**  Each recognized TaskKind's template splices the
selection, the truncated left context, the truncated right context (and
the truncated full document) into **exactly one slot each**: the prompt
is a fixed template with one placeholder per value.  (As raw substrings
the values may occur additional times when they also appear in the fixed
template text or inside one another, as the counterexample shows.) -/
theorem claim_C9 (selection leftCtx rightCtx fullDoc : String) :
    buildPrompt "Dictionary" selection leftCtx rightCtx fullDoc
        = dictHead ++ selection ++ ctxBlockL ++ trimForTokensS leftCtx 2000 ++ ctxBlockR
            ++ trimForTokensS rightCtx 2000 ++ ctxBlockDoc ++ trimForTokensS fullDoc 6000
            ++ dictTail ∧
    buildPrompt "Correction" selection leftCtx rightCtx fullDoc
        = corrHead ++ selection ++ ctxBlockL ++ trimForTokensS leftCtx 2000 ++ ctxBlockR
            ++ trimForTokensS rightCtx 2000 ++ ctxBlockDoc ++ trimForTokensS fullDoc 6000
            ++ corrTail ∧
    buildPrompt "Explanation" selection leftCtx rightCtx fullDoc
        = explHead ++ selection ++ ctxBlockL ++ trimForTokensS leftCtx 2000 ++ ctxBlockR
            ++ trimForTokensS rightCtx 2000 ++ ctxBlockDoc ++ trimForTokensS fullDoc 6000
            ++ explTail := by
  refine ⟨rfl, rfl, rfl⟩

/-- **C6, counterexample.**  The TypeScript variant's `buildPrompt` is a
total function: for the input `"Elephant"`, which is none of the three
recognized TaskKind values, it silently produces the Explanation-template
prompt instead of failing fast with an error. -/
theorem claim_C6_counterexample :
    ("Elephant" ≠ "Dictionary" ∧ "Elephant" ≠ "Correction" ∧ "Elephant" ≠ "Explanation") ∧
    buildPrompt "Elephant" "x" "" "" "" = buildPrompt "Explanation" "x" "" "" "" :=
  ⟨⟨by decide, by decide, by decide⟩, rfl⟩

/-- **C6, amended.**  Only the build variant fails fast: for every kind
other than `"Dictionary"` and `"Correction"`, `buildPromptBuild` throws
`"Unsupported task kind"` (in particular also for `"Explanation"`),
whereas the TypeScript variant's `buildPrompt` never fails — every kind
other than `"Dictionary"` and `"Correction"` silently falls through to
the Explanation template. -/
theorem claim_C6 (kind selection leftCtx rightCtx fullDoc : String)
    (h1 : kind ≠ "Dictionary") (h2 : kind ≠ "Correction") :
    buildPromptBuild kind selection leftCtx rightCtx
        = Except.error "Unsupported task kind" ∧
    buildPrompt kind selection leftCtx rightCtx fullDoc
        = explHead ++ selection ++ ctxBlockL ++ trimForTokensS leftCtx 2000 ++ ctxBlockR
            ++ trimForTokensS rightCtx 2000 ++ ctxBlockDoc ++ trimForTokensS fullDoc 6000
            ++ explTail := by
  constructor
  · simp only [buildPromptBuild]
    rw [if_neg h1, if_neg h2]
  · simp only [buildPrompt]
    rw [if_neg h1, if_neg h2]

/-- Witness for the amended C6 at the kind `"Explanation"`: supported by
the TypeScript variant, rejected by the build variant. -/
theorem claim_C6_witness :
    buildPromptBuild "Explanation" "sel" "lc" "rc"
        = Except.error "Unsupported task kind" ∧
    buildPrompt "Explanation" "sel" "lc" "rc" "doc"
        = explHead ++ "sel" ++ ctxBlockL ++ trimForTokensS "lc" 2000 ++ ctxBlockR
            ++ trimForTokensS "rc" 2000 ++ ctxBlockDoc ++ trimForTokensS "doc" 6000
            ++ explTail :=
  claim_C6 "Explanation" "sel" "lc" "rc" "doc" (by decide) (by decide)

/-- The observable effects of one `runTask` invocation, in order:
`new Notice(...)`, opening the popover (`showPopoverAtSelection`), the
network call (`fetch` via `callOpenRouterChat`), and rendering markdown
into the popover (`updatePopoverMarkdown`). -/
inductive Effect where
  | notice (msg : String)
  | openPopover (initialMarkdown : String)
  | fetchRequest (model user : String)
  | updateMarkdown (markdown : String)
deriving DecidableEq

/-- The error block `runTask` renders on any failure
(main.ts lines 128-133). -/
def errorMarkdown (msg : String) : String :=
  "**Error**\n\n```\n" ++ msg ++ "\n```\n\nCheck API key, model name, or rate limits."

/-- `runTask` of the TypeScript source (main.ts lines 91-134), as the
ordered list of its observable effects for a single invocation.
`selectionRaw` is `editor.getSelection()`, `doc` is `editor.getValue()`,
`fromPos`/`toPos` the selection offsets, `model` the identifier resolved
by `getModelFor`, and `outcome` the result of the single `fetch`.
`!selection` and `!this.settings.openrouterApiKey` test for the empty
string (the only falsy value arising here).  The `surrounding` local of
the source is computed but never used, and is omitted. -/
def runTask (kind selectionRaw apiKey doc model : String) (fromPos toPos : Nat)
    (outcome : FetchOutcome) : List Effect :=
  let selection := jsTrimS selectionRaw
  if selection = "" then [Effect.notice "Select some text first."]
  else if apiKey = "" then [Effect.notice "Set your OpenRouter API key in settings."]
  else
    let ctx := extract doc.data fromPos toPos 1200
    let leftCtx := String.mk ctx.1
    let rightCtx := String.mk ctx.2
    let prompt := buildPrompt kind selection leftCtx rightCtx doc
    Effect.openPopover "Working…" ::
      Effect.fetchRequest model prompt ::
        (match callOpenRouterChat outcome with
          | Except.ok md => [Effect.updateMarkdown md]
          | Except.error e => [Effect.updateMarkdown (errorMarkdown e)])

/-- The combined C8 property: with an empty (after trimming) selection or
a missing API key, the run's only observable effect is the corresponding
notice — no overlay is created and no network call is made. -/
def C8Prop (kind selectionRaw apiKey doc model : String) (fromPos toPos : Nat)
    (outcome : FetchOutcome) : Prop :=
  (∃ m, runTask kind selectionRaw apiKey doc model fromPos toPos outcome
      = [Effect.notice m]) ∧
  (jsTrimS selectionRaw = "" →
      runTask kind selectionRaw apiKey doc model fromPos toPos outcome
        = [Effect.notice "Select some text first."]) ∧
  (jsTrimS selectionRaw ≠ "" →
      runTask kind selectionRaw apiKey doc model fromPos toPos outcome
        = [Effect.notice "Set your OpenRouter API key in settings."]) ∧
  (∀ e ∈ runTask kind selectionRaw apiKey doc model fromPos toPos outcome,
      (∀ s, e ≠ Effect.openPopover s) ∧ (∀ m u, e ≠ Effect.fetchRequest m u))

/-- **C8.**  Whenever the trimmed selection text is empty or no API
credential is configured, `runTask` short-circuits: its only observable
effect is a user-visible notice; no overlay is opened and no network
request is issued. -/
theorem claim_C8 (kind selectionRaw apiKey doc model : String) (fromPos toPos : Nat)
    (outcome : FetchOutcome) (h : jsTrimS selectionRaw = "" ∨ apiKey = "") :
    C8Prop kind selectionRaw apiKey doc model fromPos toPos outcome := by
  unfold C8Prop
  by_cases hsel : jsTrimS selectionRaw = ""
  · have hrun : runTask kind selectionRaw apiKey doc model fromPos toPos outcome
        = [Effect.notice "Select some text first."] := by
      simp only [runTask]
      rw [if_pos hsel]
    have hmem : ∀ e ∈ runTask kind selectionRaw apiKey doc model fromPos toPos outcome,
        (∀ s, e ≠ Effect.openPopover s) ∧ (∀ m u, e ≠ Effect.fetchRequest m u) := by
      intro e he
      rw [hrun] at he
      simp only [List.mem_singleton] at he
      subst he
      exact ⟨fun s hcon => Effect.noConfusion hcon, fun m u hcon => Effect.noConfusion hcon⟩
    exact ⟨⟨_, hrun⟩, fun _ => hrun, fun hc => absurd hsel hc, hmem⟩
  · have hkey : apiKey = "" := h.resolve_left hsel
    have hrun : runTask kind selectionRaw apiKey doc model fromPos toPos outcome
        = [Effect.notice "Set your OpenRouter API key in settings."] := by
      simp only [runTask]
      rw [if_neg hsel, if_pos hkey]
    have hmem : ∀ e ∈ runTask kind selectionRaw apiKey doc model fromPos toPos outcome,
        (∀ s, e ≠ Effect.openPopover s) ∧ (∀ m u, e ≠ Effect.fetchRequest m u) := by
      intro e he
      rw [hrun] at he
      simp only [List.mem_singleton] at he
      subst he
      exact ⟨fun s hcon => Effect.noConfusion hcon, fun m u hcon => Effect.noConfusion hcon⟩
    exact ⟨⟨_, hrun⟩, fun hc => absurd hc hsel, fun _ => hrun, hmem⟩

/-- Witness for C8: a whitespace-only selection short-circuits with the
"Select some text first." notice. -/
theorem claim_C8_witness :
    C8Prop "Dictionary" "   " "some-key" "doc text" "model" 0 0
      (FetchOutcome.networkError "unreachable") :=
  claim_C8 "Dictionary" "   " "some-key" "doc text" "model" 0 0
    (FetchOutcome.networkError "unreachable") (Or.inl (by decide))

/-- The mutable overlay state owned by the plugin object
(main.ts lines 149-150) together with the overlay panels currently
attached to `document.body`.  Panels are identified by a `Nat` id;
`docPanels` lists the ids of the `.aiwh-popover` container elements in
the document, `popoverEl`/`contentEl` are the two element references
(`null` is `none`), and `raw` is the `data-raw-markdown` attribute last
written to the current content element. -/
structure OverlayState where
  docPanels : List Nat
  popoverEl : Option Nat
  contentEl : Option Nat
  raw : String
deriving DecidableEq

/-- The state at plugin load: both references `null`, no panel in the
document. -/
def initialOverlay : OverlayState :=
  { docPanels := [], popoverEl := none, contentEl := none, raw := "" }

/-- `destroyPopover` (main.ts lines 216-222): if `popoverEl` is set,
remove that element from the document and null both references;
otherwise do nothing. -/
def destroyPopover (s : OverlayState) : OverlayState :=
  match s.popoverEl with
  | none => s
  | some p =>
    { docPanels := s.docPanels.erase p, popoverEl := none, contentEl := none, raw := s.raw }

/-- `updatePopoverMarkdown` (main.ts lines 204-214):
`if (!this.popoverEl || !this.contentEl) return;` then store the raw
markdown on the content element and render.  Note the guard consults
only the *current* references; it does not know which overlay instance a
caller was working for. -/
def updatePopoverMarkdown (markdown : String) (s : OverlayState) : OverlayState :=
  if s.popoverEl.isNone || s.contentEl.isNone then s
  else { s with raw := markdown }

/-- `showPopoverAtSelection` (main.ts lines 152-202): destroy any prior
popover, create a fresh container (id `id`) with its content element,
set both references, append the container to `document.body`, and render
the initial markdown via `updatePopoverMarkdown`. -/
def showPopoverAtSelection (id : Nat) (initialMarkdown : String) (s : OverlayState) : OverlayState :=
  let s1 := destroyPopover s
  let s2 : OverlayState :=
    { docPanels := s1.docPanels ++ [id], popoverEl := some id, contentEl := some id,
      raw := s1.raw }
  updatePopoverMarkdown initialMarkdown s2

/-- The operations that touch the overlay state.  `openPanel id md` is a
`showPopoverAtSelection` call creating panel `id`; `update`/`close` are
direct calls; `complete forId md` is the resumption of a `runTask` whose
own overlay was panel `forId` — the source's continuation simply calls
`updatePopoverMarkdown(md)` (or the error-markdown variant) without
consulting `forId`, which is recorded here only so the claim about stale
completions can be stated. -/
inductive OverlayOp where
  | openPanel (id : Nat) (initialMarkdown : String)
  | update (markdown : String)
  | close
  | complete (forId : Nat) (markdown : String)
deriving DecidableEq

/-- One overlay operation as executed by the source. -/
def overlayStep (s : OverlayState) : OverlayOp → OverlayState
  | OverlayOp.openPanel id md => showPopoverAtSelection id md s
  | OverlayOp.update md => updatePopoverMarkdown md s
  | OverlayOp.close => destroyPopover s
  | OverlayOp.complete _ md => updatePopoverMarkdown md s

/-- A run of overlay operations from a given state. -/
def runOps (s : OverlayState) (ops : List OverlayOp) : OverlayState :=
  ops.foldl overlayStep s

/-- The overlay representation invariant: the panels in the document are
exactly the tracked one, and the two element references are set and
cleared together. -/
def overlayInv (s : OverlayState) : Prop :=
  s.docPanels = s.popoverEl.toList ∧ (s.popoverEl = none ↔ s.contentEl = none)

theorem overlayInv_initial : overlayInv initialOverlay :=
  ⟨rfl, Iff.rfl⟩

theorem destroyPopover_spec (s : OverlayState) (h : overlayInv s) :
    (destroyPopover s).docPanels = [] ∧ (destroyPopover s).popoverEl = none ∧
      (destroyPopover s).contentEl = none := by
  obtain ⟨hdoc, hiff⟩ := h
  cases hp : s.popoverEl with
  | none =>
    refine ⟨?_, ?_, ?_⟩ <;> simp [destroyPopover, hp, hdoc, hiff.mp hp]
  | some p =>
    refine ⟨?_, ?_, ?_⟩ <;> simp [destroyPopover, hp, hdoc]

theorem updatePopoverMarkdown_shape (markdown : String) (s : OverlayState) :
    (updatePopoverMarkdown markdown s).docPanels = s.docPanels ∧
    (updatePopoverMarkdown markdown s).popoverEl = s.popoverEl ∧
    (updatePopoverMarkdown markdown s).contentEl = s.contentEl := by
  unfold updatePopoverMarkdown
  by_cases hc : (s.popoverEl.isNone || s.contentEl.isNone) = true
  · rw [if_pos hc]
    exact ⟨rfl, rfl, rfl⟩
  · rw [if_neg hc]
    exact ⟨rfl, rfl, rfl⟩

theorem showPopover_spec (id : Nat) (md : String) (s : OverlayState) (h : overlayInv s) :
    (showPopoverAtSelection id md s).docPanels = [id] ∧
    (showPopoverAtSelection id md s).popoverEl = some id ∧
    (showPopoverAtSelection id md s).contentEl = some id := by
  obtain ⟨hdoc, -, -⟩ := destroyPopover_spec s h
  unfold showPopoverAtSelection
  obtain ⟨h1, h2, h3⟩ := updatePopoverMarkdown_shape md
    { docPanels := (destroyPopover s).docPanels ++ [id], popoverEl := some id,
      contentEl := some id, raw := (destroyPopover s).raw }
  refine ⟨?_, ?_, ?_⟩
  · rw [h1]
    simp [hdoc]
  · rw [h2]
  · rw [h3]

theorem overlayStep_inv (s : OverlayState) (h : overlayInv s) (op : OverlayOp) :
    overlayInv (overlayStep s op) := by
  cases op with
  | openPanel id md =>
    obtain ⟨h1, h2, h3⟩ := showPopover_spec id md s h
    show overlayInv (showPopoverAtSelection id md s)
    exact ⟨by rw [h1, h2]; rfl, by rw [h2, h3]⟩
  | update md =>
    obtain ⟨h1, h2, h3⟩ := updatePopoverMarkdown_shape md s
    show overlayInv (updatePopoverMarkdown md s)
    exact ⟨by rw [h1, h2]; exact h.1, by rw [h2, h3]; exact h.2⟩
  | close =>
    obtain ⟨h1, h2, h3⟩ := destroyPopover_spec s h
    show overlayInv (destroyPopover s)
    exact ⟨by rw [h1, h2]; rfl, by rw [h2, h3]⟩
  | complete forId md =>
    obtain ⟨h1, h2, h3⟩ := updatePopoverMarkdown_shape md s
    show overlayInv (updatePopoverMarkdown md s)
    exact ⟨by rw [h1, h2]; exact h.1, by rw [h2, h3]; exact h.2⟩

theorem runOps_inv (ops : List OverlayOp) (s : OverlayState) (h : overlayInv s) :
    overlayInv (runOps s ops) := by
  induction ops generalizing s with
  | nil => exact h
  | cons op rest ih => exact ih (overlayStep s op) (overlayStep_inv s h op)

/-- **C5.**  Starting from the closed initial state, after any sequence
of overlay operations at most one overlay panel is attached to the
document, and after any sequence ending in an open operation exactly one
panel is attached: opening destroys the prior panel before appending the
new one. -/
theorem claim_C5 (ops : List OverlayOp) :
    (runOps initialOverlay ops).docPanels.length ≤ 1 ∧
    ∀ id md,
      (runOps initialOverlay (ops ++ [OverlayOp.openPanel id md])).docPanels.length = 1 := by
  have hinv := runOps_inv ops initialOverlay overlayInv_initial
  constructor
  · rw [hinv.1]
    cases (runOps initialOverlay ops).popoverEl <;> simp
  · intro id md
    have happ : runOps initialOverlay (ops ++ [OverlayOp.openPanel id md])
        = overlayStep (runOps initialOverlay ops) (OverlayOp.openPanel id md) := by
      unfold runOps
      rw [List.foldl_append]
      rfl
    rw [happ]
    obtain ⟨h1, -, -⟩ := showPopover_spec id md (runOps initialOverlay ops) hinv
    show (showPopoverAtSelection id md (runOps initialOverlay ops)).docPanels.length = 1
    rw [h1]
    rfl

/-- **C10.**  The controller invariant "`popoverEl` is null iff
`contentEl` is null" holds in the initial state and is preserved by
every overlay operation (`showPopoverAtSelection` sets both, `destroyPopover`
clears both, `updatePopoverMarkdown` touches neither). -/
theorem claim_C10 (s : OverlayState) (h : s.popoverEl = none ↔ s.contentEl = none)
    (op : OverlayOp) :
    ((overlayStep s op).popoverEl = none ↔ (overlayStep s op).contentEl = none) ∧
    (initialOverlay.popoverEl = none ↔ initialOverlay.contentEl = none) := by
  refine ⟨?_, Iff.rfl⟩
  cases op with
  | openPanel id md =>
    obtain ⟨-, h2, h3⟩ := updatePopoverMarkdown_shape md
      { docPanels := (destroyPopover s).docPanels ++ [id], popoverEl := some id,
        contentEl := some id, raw := (destroyPopover s).raw }
    show (updatePopoverMarkdown md _).popoverEl = none ↔ (updatePopoverMarkdown md _).contentEl = none
    rw [h2, h3]
  | update md =>
    obtain ⟨-, h2, h3⟩ := updatePopoverMarkdown_shape md s
    show (updatePopoverMarkdown md s).popoverEl = none ↔ (updatePopoverMarkdown md s).contentEl = none
    rw [h2, h3]
    exact h
  | close =>
    cases hp : s.popoverEl with
    | none =>
      show (destroyPopover s).popoverEl = none ↔ (destroyPopover s).contentEl = none
      simp [destroyPopover, hp, h.mp hp]
    | some p =>
      show (destroyPopover s).popoverEl = none ↔ (destroyPopover s).contentEl = none
      simp [destroyPopover, hp]
  | complete forId md =>
    obtain ⟨-, h2, h3⟩ := updatePopoverMarkdown_shape md s
    show (updatePopoverMarkdown md s).popoverEl = none ↔ (updatePopoverMarkdown md s).contentEl = none
    rw [h2, h3]
    exact h

/-- Witness for C10: one step from a concrete open state. -/
theorem claim_C10_witness :
    ((overlayStep { docPanels := [7], popoverEl := some 7, contentEl := some 7, raw := "x" }
          OverlayOp.close).popoverEl = none
        ↔ (overlayStep { docPanels := [7], popoverEl := some 7, contentEl := some 7, raw := "x" }
          OverlayOp.close).contentEl = none) ∧
    (initialOverlay.popoverEl = none ↔ initialOverlay.contentEl = none) :=
  claim_C10 { docPanels := [7], popoverEl := some 7, contentEl := some 7, raw := "x" }
    (by simp) OverlayOp.close

/-- **C4.**  The claim says a completion resolving after its overlay was
superseded is silently discarded and never rendered into the currently
open overlay.  The code does not do this: `updatePopoverMarkdown` only
checks that *some* overlay is open.  In the run below, the task opened
for panel 1 resolves after panel 2 superseded it, and its result
`"stale result"` **is** rendered into panel 2 (the state's raw markdown
becomes `"stale result"` while panel 2 is current), contradicting the
claim at this concrete input. -/
theorem claim_C4_eval :
    (runOps initialOverlay
        [OverlayOp.openPanel 1 "Working…", OverlayOp.openPanel 2 "Working…",
          OverlayOp.complete 1 "stale result"]).popoverEl = some 2 ∧
    (runOps initialOverlay
        [OverlayOp.openPanel 1 "Working…", OverlayOp.openPanel 2 "Working…",
          OverlayOp.complete 1 "stale result"]).raw = "stale result" := by
  exact ⟨rfl, rfl⟩
